import Mathlib

/-!
Verification development for the Secret Poll installation orchestrator
(`install.py`) and its production validator (`production_validator.py`).

The Python code is shallowly embedded: pure string generation becomes Lean
functions on a `Config` structure, interactive input loops become functions
over lists of candidate answers, and external command outcomes become
explicit `CmdOutcome` values supplied by an environment record.  `sys.exit`
(Python `SystemExit`, which is *not* caught by `except Exception`) and
ordinary Python exceptions are modelled as distinct abnormal-flow values.
-/

/-- Log levels used by `SecretPollInstaller.log`. -/
inductive Level
  | INFO
  | SUCCESS
  | WARNING
  | ERROR
  | STEP
  | PROGRESS
deriving Repr, DecidableEq

/-- Outcome of one external command, as observed by `run_command`:
normal exit 0 with captured stdout, a nonzero exit code
(`subprocess.CalledProcessError`), or a missing binary
(`FileNotFoundError`). -/
inductive CmdOutcome
  | ok (stdout : String)
  | nonzeroExit (code : Int)
  | notFound
deriving Repr, DecidableEq

/-- A command outcome counts as failed when it is a nonzero exit or a
missing binary. -/
def CmdOutcome.failed : CmdOutcome → Bool
  | .ok _ => false
  | _ => true

/-- Result of a call that either returns a value or terminates the whole
process (`sys.exit code`). -/
inductive CmdResult
  | ret (out : String)
  | exitProc (code : Nat)
deriving Repr, DecidableEq

/-- The configuration dictionary collected by
`SecretPollInstaller.collect_configuration`, together with the
`install_dir` attribute set during the same prompt sequence. -/
structure Config where
  domain : String
  is_ip : Bool
  enable_ssl : Bool
  ssl_email : Option String
  web_server : String
  environment : String
  install_dir : String
deriving Repr, DecidableEq

/-- Whitespace characters stripped by Python's `str.strip()`. -/
def isSpaceChar (c : Char) : Bool :=
  c == ' ' || c == '\t' || c == '\n' || c == '\r' || c == '\x0b' || c == '\x0c'

/-- Embedding of Python's `str.strip()`: drop whitespace from both
ends. -/
def pyStrip (s : String) : String :=
  String.mk (((s.data.dropWhile isSpaceChar).reverse.dropWhile isSpaceChar).reverse)

/-- ASCII lowercasing of one character (the only case relevant to the
installer's inputs). -/
def lowerChar (c : Char) : Char :=
  if 'A' ≤ c && c ≤ 'Z' then Char.ofNat (c.toNat + 32) else c

/-- Embedding of Python's `str.lower()` on the installer's (ASCII)
inputs. -/
def pyLower (s : String) : String :=
  String.mk (s.data.map lowerChar)

/-- Embedding of Python's `c in s` membership test for one character. -/
def pyContains (s : String) (c : Char) : Bool :=
  s.data.contains c

/-- Split a character list on `'.'` separators, Python/`str.split`-style:
the empty list yields one empty part, and consecutive dots yield empty
parts. -/
def splitOnDot : List Char → List (List Char)
  | [] => [[]]
  | c :: rest =>
      let r := splitOnDot rest
      if c = '.' then [] :: r
      else
        match r with
        | [] => [[c]]
        | h :: t => (c :: h) :: t

/-- ASCII alphanumeric test matching the regex character class
`[a-zA-Z0-9]` used in `validate_domain_or_ip`. -/
def alnumChar (c : Char) : Bool :=
  c.isAlpha || c.isDigit

/-- Decision procedure for one domain label, equivalent to the regex piece
`[a-zA-Z0-9](?:[a-zA-Z0-9-]{0,61}[a-zA-Z0-9])?`: length 1 to 63, first and
last characters alphanumeric, interior characters alphanumeric or a
hyphen. -/
def labelOk : List Char → Bool
  | [] => false
  | [c] => alnumChar c
  | c :: rest =>
      alnumChar c && rest.length ≤ 62 &&
        (rest.dropLast.all fun x => alnumChar x || x == '-') &&
        alnumChar (rest.getLastD 'a')

/-- Full-string match of the domain regex of `validate_domain_or_ip`: a
dot-separated sequence of valid labels (the regex anchors with `^` and
`$`, so every label including the last must match). -/
def domainMatch (s : String) : Bool :=
  (splitOnDot s.data).all labelOk

/-- Numeric value of one C-number digit (decimal or hexadecimal), via the
character's code point: `0`-`9` are 48-57, `A`-`F` are 65-70 and `a`-`f`
are 97-102. -/
def digitVal (c : Char) : Option Nat :=
  let n := c.toNat
  if 48 ≤ n && n ≤ 57 then some (n - 48)
  else if 97 ≤ n && n ≤ 102 then some (n - 87)
  else if 65 ≤ n && n ≤ 70 then some (n - 55)
  else none

/-- Parse a nonempty digit string in the given base, failing on any
character that is not a digit of that base (so `"08"` is not a valid octal
part, as in `inet_aton`). -/
def parseDigits (base : Nat) : List Char → Nat → Option Nat
  | [], acc => some acc
  | c :: rest, acc =>
      match digitVal c with
      | some v => if v < base then parseDigits base rest (acc * base + v) else none
      | none => none

/-- Parse one dot-separated part of an `inet_aton` address: `0x`/`0X`
prefix selects hexadecimal, a leading `0` selects octal, otherwise
decimal; the whole part must be consumed. -/
def parseCPart : List Char → Option Nat
  | [] => none
  | '0' :: 'x' :: rest => if rest.isEmpty then none else parseDigits 16 rest 0
  | '0' :: 'X' :: rest => if rest.isEmpty then none else parseDigits 16 rest 0
  | '0' :: rest => if rest.isEmpty then some 0 else parseDigits 8 rest 0
  | cs => parseDigits 10 cs 0

/-- The `is_ip_address` check of the installer, i.e. `socket.inet_aton`
acceptance: one to four C-number parts separated by dots, with the classic
`inet_aton` bounds per arity. -/
def is_ip_address (v : String) : Bool :=
  match (splitOnDot v.data).map parseCPart with
  | [some a] => decide (a < 4294967296)
  | [some a, some b] => decide (a < 256) && decide (b < 16777216)
  | [some a, some b, some c] => decide (a < 256) && decide (b < 256) && decide (c < 65536)
  | [some a, some b, some c, some d] =>
      decide (a < 256) && decide (b < 256) && decide (c < 256) && decide (d < 256)
  | _ => false

/-- The installer's `validate_domain_or_ip`: accept a valid IP address or
a string matching the domain regex. -/
def validate_domain_or_ip (v : String) : Bool :=
  is_ip_address v || domainMatch v

/-- One interactive prompt loop: each candidate answer is stripped and the
first one accepted by the predicate is returned; `none` models the user
never supplying a valid answer within the given attempts. -/
def firstValid (p : String → Bool) : List String → Option String
  | [] => none
  | x :: xs =>
      let x' := pyStrip x
      if p x' then some x' else firstValid p xs

/-- The web-server prompt of `collect_configuration`: a stripped answer,
defaulting to `"1"` when empty, mapped through
`{"1": "nginx", "2": "apache", "3": "standalone"}`. -/
def wsOfChoice (c : String) : Option String :=
  let c := pyStrip c
  let c := if c = "" then "1" else c
  if c = "1" then some "nginx"
  else if c = "2" then some "apache"
  else if c = "3" then some "standalone"
  else none

/-- The web-server prompt loop: re-prompt until a choice in 1..3. -/
def firstWs : List String → Option String
  | [] => none
  | x :: xs =>
      match wsOfChoice x with
      | some w => some w
      | none => firstWs xs

/-- The SSL part of `collect_configuration`: for an IP the SSL question
is skipped and `enable_ssl` is set to false; otherwise the stripped,
lowercased answer enables SSL unless it is exactly `"n"`, and with SSL
enabled the email loop re-prompts until a nonempty answer containing `@`
arrives.  Returns `(enable_ssl, ssl_email)`. -/
def collect_ssl (isIp : Bool) (sslChoice : String) (emails : List String) :
    Option (Bool × Option String) :=
  if !isIp then
    if pyLower (pyStrip sslChoice) ≠ "n" then
      match firstValid (fun e => e ≠ "" && pyContains e '@') emails with
      | none => none
      | some e => some (true, some e)
    else some (false, none)
  else some (false, none)

/-- Shallow embedding of `SecretPollInstaller.collect_configuration`.
Each `input()` loop consumes candidate answers from a list; `none` means
some loop ran out of answers (the real code would keep re-prompting).
The SSL question is asked only for non-IP domains; the email loop runs
only when SSL is enabled; the environment answer falls back to
`"production"`; an empty install-directory answer keeps the default
`/opt/secret-poll`. -/
def collect_configuration (domains : List String) (sslChoice : String)
    (emails : List String) (wsChoices : List String)
    (envChoice : String) (installDirInput : String) : Option Config :=
  match firstValid (fun d => d ≠ "" && validate_domain_or_ip d) domains with
  | none => none
  | some domain =>
      let isIp := is_ip_address domain
      match collect_ssl isIp sslChoice emails with
      | none => none
      | some (enableSsl, email) =>
          match firstWs wsChoices with
          | none => none
          | some ws =>
              let envAns := pyLower (pyStrip envChoice)
              let env := if envAns = "production" || envAns = "staging" then envAns else "production"
              let dirAns := pyStrip installDirInput
              let dir := if dirAns ≠ "" then dirAns else "/opt/secret-poll"
              some { domain := domain, is_ip := isIp, enable_ssl := enableSsl,
                     ssl_email := email, web_server := ws, environment := env,
                     install_dir := dir }

/-- Shallow embedding of the configuration mutation performed by
`SecretPollInstaller.setup_ssl`: when SSL is disabled the step returns at
once; when the certbot command succeeds the configuration is untouched;
when it fails the installer downgrades to HTTP by setting
`config['enable_ssl'] = False` (leaving `ssl_email` in place). -/
def setup_ssl (cfg : Config) (certbotOk : Bool) : Config :=
  if !cfg.enable_ssl then cfg
  else if certbotOk then cfg
  else { cfg with enable_ssl := false }

/-- Observable behaviour of one `run_command` call: the log entries it
produced (level and message), whether the "Recent log entries" tail of the
run log was echoed to the terminal, and whether the call returned or
terminated the process. -/
structure CmdLogged where
  logs : List (Level × String)
  tailShown : Bool
  result : CmdResult
deriving Repr, DecidableEq

/-- Shallow embedding of `SecretPollInstaller.run_command`.  A successful
command returns its stdout when `captureOutput` is set and `""` otherwise.
On `CalledProcessError` the failure and exit code are logged (at WARNING
level when `ignoreErrors`, else ERROR); with `ignoreErrors` the call
returns `""` after a "Continuing despite error" warning, otherwise the
recent log tail is shown and the process exits with code 1.  On
`FileNotFoundError` a single entry is logged and the call either returns
`""` (when `ignoreErrors`) or exits with code 1 without showing the log
tail. -/
def run_command (cmd : List String) (description : String)
    (captureOutput ignoreErrors : Bool) (outcome : CmdOutcome) : CmdLogged :=
  let descLogs : List (Level × String) :=
    if description ≠ "" then [(Level.INFO, description)] else []
  match outcome with
  | .ok stdout =>
      { logs := descLogs, tailShown := false,
        result := .ret (if captureOutput then stdout else "") }
  | .nonzeroExit code =>
      let errorMsg :=
        if description ≠ "" then description ++ " failed"
        else "Command failed: " ++ String.intercalate " " cmd
      let lvl := if ignoreErrors then Level.WARNING else Level.ERROR
      let failLogs := descLogs ++ [(lvl, errorMsg), (lvl, "Exit code: " ++ toString code)]
      if ignoreErrors then
        { logs := failLogs ++ [(Level.WARNING, "Continuing despite error (ignore_errors=True)")],
          tailShown := false, result := .ret "" }
      else
        { logs := failLogs, tailShown := true, result := .exitProc 1 }
  | .notFound =>
      let errorMsg := "Command not found: " ++ cmd.headD ""
      let lvl := if ignoreErrors then Level.WARNING else Level.ERROR
      if ignoreErrors then
        { logs := descLogs ++ [(lvl, errorMsg)], tailShown := false, result := .ret "" }
      else
        { logs := descLogs ++ [(lvl, errorMsg)], tailShown := false, result := .exitProc 1 }

/-- Prefix test on character lists (used to count substring
occurrences). -/
def isPrefixList : List Char → List Char → Bool
  | [], _ => true
  | _ :: _, [] => false
  | a :: as, b :: bs => a == b && isPrefixList as bs

/-- Number of positions of the haystack at which the (nonempty) needle
occurs. -/
def countOccs (needle : List Char) : List Char → Nat
  | [] => 0
  | c :: rest =>
      (if isPrefixList needle (c :: rest) then 1 else 0) + countOccs needle rest

/-- Substring test used to embed Python's `in` operator on strings. -/
def containsSub (hay needle : String) : Bool :=
  decide (0 < countOccs needle.data hay.data)

/-- Shallow embedding of `SecretPollInstaller.generate_nginx_config`: the
HTTP server block, an HTTPS redirect plus TLS server block appended only
when SSL is enabled, and the always-present security headers, frontend
root, `/api/` proxy with WebSocket upgrade, and static-asset caching
rules. -/
def generate_nginx_config (cfg : Config) : String :=
  let domain := cfg.domain
  let install_dir := cfg.install_dir
  let head :=
    "# Secret Poll Nginx Configuration\n" ++
    "server \x7b\n" ++
    "    listen 80;\n" ++
    "    server_name " ++ domain ++ ";"
  let sslPart :=
    "\n    \n    # Redirect HTTP to HTTPS\n" ++
    "    return 301 https://$server_name$request_uri;\n" ++
    "\x7d\n" ++
    "\n" ++
    "server \x7b\n" ++
    "    listen 443 ssl http2;\n" ++
    "    server_name " ++ domain ++ ";\n" ++
    "    \n    # SSL Configuration\n" ++
    "    ssl_certificate /etc/letsencrypt/live/" ++ domain ++ "/fullchain.pem;\n" ++
    "    ssl_certificate_key /etc/letsencrypt/live/" ++ domain ++ "/privkey.pem;\n" ++
    "    \n    # Security headers\n" ++
    "    add_header Strict-Transport-Security \"max-age=31536000; includeSubDomains\" always;"
  let tail :=
    "\n    \n    # Security headers\n" ++
    "    add_header X-Frame-Options DENY;\n" ++
    "    add_header X-Content-Type-Options nosniff;\n" ++
    "    add_header X-XSS-Protection \"1; mode=block\";\n" ++
    "    add_header Referrer-Policy strict-origin-when-cross-origin;\n" ++
    "    \n    # Frontend\n" ++
    "    location / \x7b\n" ++
    "        root " ++ install_dir ++ "/frontend/build;\n" ++
    "        index index.html;\n" ++
    "        try_files $uri $uri/ /index.html;\n" ++
    "    \x7d\n" ++
    "    \n    # API routes\n" ++
    "    location /api/ \x7b\n" ++
    "        proxy_pass http://localhost:8001;\n" ++
    "        proxy_set_header Host $host;\n" ++
    "        proxy_set_header X-Real-IP $remote_addr;\n" ++
    "        proxy_set_header X-Forwarded-For $proxy_add_x_forwarded_for;\n" ++
    "        proxy_set_header X-Forwarded-Proto $scheme;\n" ++
    "        \n        # WebSocket support\n" ++
    "        proxy_http_version 1.1;\n" ++
    "        proxy_set_header Upgrade $http_upgrade;\n" ++
    "        proxy_set_header Connection \"upgrade\";\n" ++
    "        proxy_read_timeout 86400;\n" ++
    "        proxy_send_timeout 86400;\n" ++
    "    \x7d\n" ++
    "    \n    # Static assets caching\n" ++
    "    location ~* \\.(js|css|png|jpg|jpeg|gif|ico|svg|woff|woff2)$ \x7b\n" ++
    "        expires 1y;\n" ++
    "        add_header Cache-Control \"public, immutable\";\n" ++
    "        access_log off;\n" ++
    "    \x7d\n" ++
    "\x7d\n"
  head ++ (if cfg.enable_ssl then sslPart else "") ++ tail

/-- The constant `service_name` attribute of the installer. -/
def service_name : String := "secret-poll"

/-- Shallow embedding of `SecretPollInstaller.generate_apache_config`: the
port-80 virtual host, with a TLS port-443 virtual host appended only when
SSL is enabled. -/
def generate_apache_config (cfg : Config) : String :=
  let domain := cfg.domain
  let install_dir := cfg.install_dir
  let head :=
    "# Secret Poll Apache Configuration\n" ++
    "<VirtualHost *:80>\n" ++
    "    ServerName " ++ domain ++ "\n" ++
    "    DocumentRoot " ++ install_dir ++ "/frontend/build\n" ++
    "    \n    # Security headers\n" ++
    "    Header always set X-Frame-Options DENY\n" ++
    "    Header always set X-Content-Type-Options nosniff\n" ++
    "    Header always set X-XSS-Protection \"1; mode=block\"\n" ++
    "    \n    # API proxy\n" ++
    "    ProxyPreserveHost On\n" ++
    "    ProxyPass /api/ http://localhost:8001/api/\n" ++
    "    ProxyPassReverse /api/ http://localhost:8001/api/\n" ++
    "    \n    # WebSocket support\n" ++
    "    ProxyPass /api/ws/ ws://localhost:8001/api/ws/\n" ++
    "    ProxyPassReverse /api/ws/ ws://localhost:8001/api/ws/\n" ++
    "    \n    # Frontend routing\n" ++
    "    <Directory " ++ install_dir ++ "/frontend/build>\n" ++
    "        Options Indexes FollowSymLinks\n" ++
    "        AllowOverride All\n" ++
    "        Require all granted\n" ++
    "        \n        RewriteEngine On\n" ++
    "        RewriteBase /\n" ++
    "        RewriteRule ^index\\.html$ - [L]\n" ++
    "        RewriteCond %\x7bREQUEST_FILENAME\x7d !-f\n" ++
    "        RewriteCond %\x7bREQUEST_FILENAME\x7d !-d\n" ++
    "        RewriteRule . /index.html [L]\n" ++
    "    </Directory>\n" ++
    "    \n    # Static files caching\n" ++
    "    <FilesMatch \"\\.(js|css|png|jpg|jpeg|gif|ico|svg|woff|woff2)$\">\n" ++
    "        ExpiresActive On\n" ++
    "        ExpiresDefault \"access plus 1 year\"\n" ++
    "    </FilesMatch>\n" ++
    "    \n    ErrorLog $\x7bAPACHE_LOG_DIR\x7d/" ++ service_name ++ "_error.log\n" ++
    "    CustomLog $\x7bAPACHE_LOG_DIR\x7d/" ++ service_name ++ "_access.log combined\n" ++
    "</VirtualHost>"
  let sslPart :=
    "\n\n<VirtualHost *:443>\n" ++
    "    ServerName " ++ domain ++ "\n" ++
    "    DocumentRoot " ++ install_dir ++ "/frontend/build\n" ++
    "    \n    # SSL Configuration\n" ++
    "    SSLEngine on\n" ++
    "    SSLCertificateFile /etc/letsencrypt/live/" ++ domain ++ "/fullchain.pem\n" ++
    "    SSLCertificateKeyFile /etc/letsencrypt/live/" ++ domain ++ "/privkey.pem\n" ++
    "    \n    # Security headers\n" ++
    "    Header always set Strict-Transport-Security \"max-age=31536000; includeSubDomains\"\n" ++
    "    Header always set X-Frame-Options DENY\n" ++
    "    Header always set X-Content-Type-Options nosniff\n" ++
    "    Header always set X-XSS-Protection \"1; mode=block\"\n" ++
    "    \n    # API proxy\n" ++
    "    ProxyPreserveHost On\n" ++
    "    ProxyPass /api/ http://localhost:8001/api/\n" ++
    "    ProxyPassReverse /api/ http://localhost:8001/api/\n" ++
    "    \n    # WebSocket support\n" ++
    "    ProxyPass /api/ws/ ws://localhost:8001/api/ws/\n" ++
    "    ProxyPassReverse /api/ws/ ws://localhost:8001/api/ws/\n" ++
    "    \n    # Frontend routing\n" ++
    "    <Directory " ++ install_dir ++ "/frontend/build>\n" ++
    "        Options Indexes FollowSymLinks\n" ++
    "        AllowOverride All\n" ++
    "        Require all granted\n" ++
    "        \n        RewriteEngine On\n" ++
    "        RewriteBase /\n" ++
    "        RewriteRule ^index\\.html$ - [L]\n" ++
    "        RewriteCond %\x7bREQUEST_FILENAME\x7d !-f\n" ++
    "        RewriteCond %\x7bREQUEST_FILENAME\x7d !-d\n" ++
    "        RewriteRule . /index.html [L]\n" ++
    "    </Directory>\n" ++
    "    \n    ErrorLog $\x7bAPACHE_LOG_DIR\x7d/" ++ service_name ++ "_ssl_error.log\n" ++
    "    CustomLog $\x7bAPACHE_LOG_DIR\x7d/" ++ service_name ++ "_ssl_access.log combined\n" ++
    "</VirtualHost>"
  head ++ (if cfg.enable_ssl then sslPart else "")

/-- The backend base URL embedded by `create_frontend_config`: the direct
`http://domain:8001` URL in standalone mode, otherwise the public domain
with `https` exactly when SSL is enabled and no port suffix. -/
def frontend_backend_url (cfg : Config) : String :=
  let direct := "http://" ++ cfg.domain ++ ":8001"
  if cfg.web_server ≠ "standalone" then
    "http" ++ (if cfg.enable_ssl then "s" else "") ++ "://" ++ cfg.domain
  else direct

/-- Full text written by `create_frontend_config` to `frontend/.env`
(the `$(date)` is literal text in the Python template, not a command
substitution). -/
def create_frontend_config_content (cfg : Config) : String :=
  "# Secret Poll Frontend Configuration\n" ++
  "REACT_APP_BACKEND_URL=" ++ frontend_backend_url cfg ++ "\n" ++
  "GENERATE_SOURCEMAP=false\n" ++
  "NODE_ENV=" ++ cfg.environment ++ "\n" ++
  "\n# Generated on $(date)\n"

/-- Shallow embedding of `SecretPollInstaller.configure_web_server`: in
standalone mode the step returns without producing any proxy artifact;
otherwise it generates the nginx or apache vhost text. -/
def configure_web_server (cfg : Config) : Option String :=
  if cfg.web_server = "standalone" then none
  else if cfg.web_server = "nginx" then some (generate_nginx_config cfg)
  else if cfg.web_server = "apache" then some (generate_apache_config cfg)
  else none

/-- The GPG fallback loop of `install_mongodb` (lines 369-385): each of
the three command variants is tried through `run_command` inside a bare
`except:` (which also swallows the `SystemExit` that `run_command` raises
on failure), stopping at the first success.  Returns the `gpg_success`
flag and the number of variants attempted. -/
def gpg_loop : List CmdOutcome → Bool × Nat
  | [] => (false, 0)
  | o :: rest =>
      if o.failed then
        let r := gpg_loop rest
        (r.1, r.2 + 1)
      else (true, 1)

/-- Outcome of one MongoDB installation strategy, as seen by the
surrounding control flow: success, an ordinary Python exception (caught by
the strategy's `except Exception` handler, letting the next strategy run),
or `sys.exit` terminating the whole process (raised by `run_command` when
a command fails with `ignore_errors` unset, and *not* caught by
`except Exception`). -/
inductive StratOutcome
  | success
  | caughtExc
  | abort (code : Nat)
deriving Repr, DecidableEq

/-- Outcomes of every external command `install_mongodb` may run, plus the
systemd unit listing used for post-install service detection. -/
structure MongoEnv where
  curl : CmdOutcome
  gpg1 : CmdOutcome
  gpg2 : CmdOutcome
  gpg3 : CmdOutcome
  lsb : CmdOutcome
  aptUpdate : CmdOutcome
  aptInstallOrg : CmdOutcome
  enableMongod : CmdOutcome
  startMongod : CmdOutcome
  aptInstallUbuntu : CmdOutcome
  listUnitFiles : CmdOutcome
  unitHasMongod : Bool
  unitHasMongodb : Bool
  enableSvc2 : CmdOutcome
  startSvc2 : CmdOutcome
  snapInstall : CmdOutcome
deriving Repr, DecidableEq

/-- Strategy 1 of `install_mongodb` (official repository).  Every command
goes through `run_command` with `ignore_errors` unset, so any command
failure terminates the process with exit code 1; the only failure the
strategy's own `except Exception` handler can catch is the explicit
`raise Exception("All GPG methods failed")` after the GPG loop exhausts.
(Repository-file writes are modelled as succeeding.) -/
def mongo_method1 (env : MongoEnv) : StratOutcome :=
  if env.curl.failed then .abort 1
  else if !(gpg_loop [env.gpg1, env.gpg2, env.gpg3]).1 then .caughtExc
  else if env.lsb.failed then .abort 1
  else if env.aptUpdate.failed then .abort 1
  else if env.aptInstallOrg.failed then .abort 1
  else if env.enableMongod.failed then .abort 1
  else if env.startMongod.failed then .abort 1
  else .success

/-- Strategy 2 of `install_mongodb` (Ubuntu repositories).  The `apt-get
install mongodb` call uses `run_command` without `ignore_errors`, so its
failure exits the process; afterwards `mongodb_installed = True` is set
unconditionally.  Service detection uses `subprocess.run(check=True)`
whose `CalledProcessError` is an ordinary exception caught by the inner
`except Exception` handler; but enabling/starting a detected service goes
back through `run_command` and can therefore abort the process. -/
def mongo_method2 (env : MongoEnv) : StratOutcome :=
  if env.aptInstallUbuntu.failed then .abort 1
  else if env.listUnitFiles.failed then .success
  else if env.unitHasMongod || env.unitHasMongodb then
    if env.enableSvc2.failed then .abort 1
    else if env.startSvc2.failed then .abort 1
    else .success
  else .success

/-- Strategy 3 of `install_mongodb` (snap).  The snap command goes through
`run_command` without `ignore_errors`, so failure exits the process. -/
def mongo_method3 (env : MongoEnv) : StratOutcome :=
  if env.snapInstall.failed then .abort 1 else .success

/-- Trace of one `install_mongodb` run: which strategies were entered (in
order), which one set `mongodb_installed`, whether the final
"All MongoDB installation methods failed" branch was reached, and whether
the process was terminated by `sys.exit` first. -/
structure MongoTrace where
  attempts : List Nat
  installedVia : Option Nat
  exhaustedReported : Bool
  aborted : Option Nat
deriving Repr, DecidableEq

/-- Shallow embedding of `SecretPollInstaller.install_mongodb`: the three
strategies run in order, each next one only when `mongodb_installed` is
still false; a strategy-level `abort` is a `sys.exit` that ends the whole
process immediately; the exhausted branch is reached only when all three
strategies failed as caught exceptions. -/
def install_mongodb (env : MongoEnv) : MongoTrace :=
  match mongo_method1 env with
  | .success => { attempts := [1], installedVia := some 1, exhaustedReported := false, aborted := none }
  | .abort c => { attempts := [1], installedVia := none, exhaustedReported := false, aborted := some c }
  | .caughtExc =>
      match mongo_method2 env with
      | .success => { attempts := [1, 2], installedVia := some 2, exhaustedReported := false, aborted := none }
      | .abort c => { attempts := [1, 2], installedVia := none, exhaustedReported := false, aborted := some c }
      | .caughtExc =>
          match mongo_method3 env with
          | .success => { attempts := [1, 2, 3], installedVia := some 3, exhaustedReported := false, aborted := none }
          | .abort c => { attempts := [1, 2, 3], installedVia := none, exhaustedReported := false, aborted := some c }
          | .caughtExc => { attempts := [1, 2, 3], installedVia := none, exhaustedReported := true, aborted := none }

/-- Flow of one installer step: either control continues to the next
statement or the process terminates with the given exit code. -/
inductive StepFlow
  | proceed
  | exitProc (code : Nat)
deriving Repr, DecidableEq

/-- The confirmation prompt at the end of
`show_configuration_summary`: the answer is stripped and lowercased, and
exactly the answer `"n"` triggers `sys.exit(0)`; anything else (including
an empty answer) lets the installation continue. -/
def show_configuration_summary_confirm (answer : String) : StepFlow :=
  if pyLower (pyStrip answer) = "n" then .exitProc 0 else .proceed

/-- How `run_installation` ends: normal completion falls off the end of
`main` (process exit code 0), while the `except KeyboardInterrupt` and
`except Exception` handlers both call `sys.exit(1)`. -/
inductive RunOutcome
  | completed
  | keyboardInterrupt
  | fatalException
deriving Repr, DecidableEq

/-- Process exit code produced by `run_installation` for each way the run
can end. -/
def run_installation_exit : RunOutcome → Nat
  | .completed => 0
  | .keyboardInterrupt => 1
  | .fatalException => 1

/-- Mutable state of `ProductionValidator`: the `issues`, `warnings` and
`successes` lists appended to by `log_issue`, `log_warning` and
`log_success`. -/
structure VState where
  issues : List String
  warnings : List String
  successes : List String
deriving Repr, DecidableEq

/-- The validator's `log_issue`: append to the critical-issue list. -/
def log_issue (m : String) (s : VState) : VState :=
  { s with issues := s.issues ++ [m] }

/-- The validator's `log_warning`: append to the warning list. -/
def log_warning (m : String) (s : VState) : VState :=
  { s with warnings := s.warnings ++ [m] }

/-- The validator's `log_success`: append to the success list. -/
def log_success (m : String) (s : VState) : VState :=
  { s with successes := s.successes ++ [m] }

/-- Outcome of one probing `subprocess.run` call in the validator: exit
code 0, a nonzero exit code, a missing binary (`FileNotFoundError`), or
some other exception. -/
inductive Probe
  | rc0
  | rcErr
  | notFound
  | exc
deriving Repr, DecidableEq

/-- Result of the Python-version probe in
`validate_backend_dependencies`: a parsed major/minor pair, an output not
containing `"Python 3."`, or an exception (including a failed `int`
parse). -/
inductive PyVerProbe
  | parsed (major minor : Nat)
  | notPython3
  | exc
deriving Repr, DecidableEq

/-- Parsed view of `frontend/package.json` as used by
`validate_frontend_dependencies`. -/
structure PkgJson where
  hasReactAll : Bool
  hasReactDomAll : Bool
  hasReactScriptsAll : Bool
  reactDepVersion : Option String
  hasBuild : Bool
  hasStart : Bool
deriving Repr, DecidableEq

/-- Environment observed by the production validator: one field per
external probe or file read performed by the eight `validate_*` checks.
`Option` wraps reads whose failure is caught as a warning (`none` models
the exception). -/
structure VEnv where
  installPyExists : Bool
  syntaxCheck : Option Bool
  hasTryExcept : Bool
  hasFallback : Bool
  hasSelfLog : Bool
  hasNodeSourceFailed : Bool
  mongodbCountGe3 : Bool
  osRelease : Option String
  memInfo : Option (Option Nat)
  diskBytes : Option Nat
  systemctlVersion : Probe
  nodeProbe : Probe
  nodeParsed : Option (Nat × Nat)
  npmProbe : Probe
  npmMajor : Option Nat
  yarnProbe : Probe
  requirementsExists : Bool
  reqHasFastapi : Bool
  reqHasUvicorn : Bool
  reqHasPymongo : Bool
  reqHasWebsockets : Bool
  reqHasReportlab : Bool
  reqHasPin : Bool
  pyVersion : PyVerProbe
  pkgJson : Option (Option PkgJson)
  urlNodesource : Option Bool
  urlMongodb : Option Bool
  urlNpmjs : Option Bool
  urlPypi : Option Bool
  portFree80 : Option Bool
  portFree443 : Option Bool
  portFree8001 : Option Bool
  portFree27017 : Option Bool
  isRoot : Bool
  ufwProbe : Probe
  ufwActive : Bool
  opensslProbe : Probe
  fBackendServer : Bool
  fBackendReq : Bool
  fFrontendPkg : Bool
  fFrontendApp : Bool
  fInstallPy : Bool
  serverContent : Option String
deriving Repr, DecidableEq

/-- The validator's `validate_install_script`: missing script is a single
issue; otherwise the syntax check and five content heuristics log a
success, warning or issue each. -/
def validate_install_script (e : VEnv) (s : VState) : VState :=
  if !e.installPyExists then log_issue "install.py not found" s
  else
    let s := match e.syntaxCheck with
      | some true => log_success "Python syntax is valid" s
      | some false => log_issue "Python syntax error" s
      | none => log_issue "Could not validate syntax" s
    let s := if e.hasTryExcept then log_success "Error handling present" s
      else log_warning "Limited error handling detected" s
    let s := if e.hasFallback then log_success "Fallback mechanisms implemented" s
      else log_warning "No fallback mechanisms detected" s
    let s := if e.hasSelfLog then log_success "Logging system implemented" s
      else log_issue "No logging system found" s
    let s := if e.hasNodeSourceFailed then log_success "Node.js fallback mechanism present" s
      else log_warning "Node.js installation may not be robust" s
    if e.mongodbCountGe3 then log_success "Multiple MongoDB installation methods" s
    else log_warning "Limited MongoDB installation options" s

/-- The validator's `validate_system_compatibility`: OS detection, memory
and disk thresholds (issues only below the lowest tier), and the systemd
probe. -/
def validate_system_compatibility (e : VEnv) (s : VState) : VState :=
  let s := match e.osRelease with
    | none => log_warning "Could not determine OS" s
    | some info =>
        let info := pyLower info
        if containsSub info "ubuntu" then log_success "Ubuntu detected - fully supported" s
        else if containsSub info "debian" then log_success "Debian detected - fully supported" s
        else if containsSub info "centos" || containsSub info "rhel" then
          log_warning "CentOS/RHEL detected - may need adjustments" s
        else log_warning "OS not specifically tested" s
  let s := match e.memInfo with
    | none => log_warning "Could not check memory" s
    | some none => s
    | some (some kb) =>
        if kb ≥ 2 * 1048576 then log_success "Memory sufficient" s
        else if kb ≥ 1048576 then log_warning "Memory adequate" s
        else log_issue "Memory insufficient" s
  let s := match e.diskBytes with
    | none => log_warning "Could not check disk space" s
    | some b =>
        if b ≥ 10 * 1073741824 then log_success "Disk space sufficient" s
        else if b ≥ 5 * 1073741824 then log_warning "Disk space adequate" s
        else log_issue "Disk space insufficient" s
  match e.systemctlVersion with
  | .rc0 => log_success "systemd available" s
  | .rcErr => log_issue "systemd not available" s
  | .notFound => log_issue "systemd not found" s
  | .exc => log_warning "Could not check systemd" s

/-- The validator's `validate_node_compatibility`: the node version gate
(20 optimal, 18.17+ acceptable, older an issue), npm major-version gate,
and the yarn availability probe. -/
def validate_node_compatibility (e : VEnv) (s : VState) : VState :=
  let s := match e.nodeProbe with
    | .rc0 =>
        match e.nodeParsed with
        | some (major, minor) =>
            if major == 20 then log_success "Node.js 20 (optimal)" s
            else if major ≥ 18 then
              if major == 18 && minor ≥ 17 then
                log_success "Node.js version compatible with React 19" s
              else if major > 18 then log_success "Node.js version compatible" s
              else log_warning "Node.js 18.17+ required for React 19" s
            else log_issue "Node.js version too old for React 19" s
        | none => log_warning "Could not parse Node.js version" s
    | .rcErr => log_issue "Node.js not found or not working" s
    | .notFound => log_issue "Node.js not installed" s
    | .exc => log_warning "Could not check Node.js" s
  let s := match e.npmProbe with
    | .rc0 =>
        match e.npmMajor with
        | some m => if m ≥ 8 then log_success "npm version compatible" s
            else log_warning "npm version may be outdated" s
        | none => log_warning "Could not check npm" s
    | .rcErr => log_issue "npm not working" s
    | .notFound => log_issue "npm not installed" s
    | .exc => log_warning "Could not check npm" s
  match e.yarnProbe with
  | .rc0 => log_success "yarn available" s
  | .rcErr => log_warning "yarn not available (npm will be used)" s
  | .notFound => log_warning "yarn not installed (npm will be used)" s
  | .exc => log_warning "Could not check yarn" s

/-- One critical-dependency presence check (an issue when missing). -/
def depCheck (present : Bool) (name : String) (s : VState) : VState :=
  if present then log_success (name ++ " dependency present") s
  else log_issue ("Missing critical dependency: " ++ name) s

/-- The validator's `validate_backend_dependencies`: requirements file
presence, five critical dependencies, version pinning, and the Python
version gate. -/
def validate_backend_dependencies (e : VEnv) (s : VState) : VState :=
  if !e.requirementsExists then log_issue "backend/requirements.txt not found" s
  else
    let s := depCheck e.reqHasFastapi "fastapi" s
    let s := depCheck e.reqHasUvicorn "uvicorn" s
    let s := depCheck e.reqHasPymongo "pymongo" s
    let s := depCheck e.reqHasWebsockets "websockets" s
    let s := depCheck e.reqHasReportlab "reportlab" s
    let s := if e.reqHasPin then log_success "Version pinning detected" s
      else log_warning "No version pinning - may cause compatibility issues" s
    match e.pyVersion with
    | .parsed major minor =>
        if major ≥ 3 && minor ≥ 8 then log_success "Python version compatible" s
        else log_issue "Python version too old" s
    | .notPython3 => log_issue "Could not determine Python version" s
    | .exc => log_warning "Could not check Python version" s

/-- The validator's `validate_frontend_dependencies`: package.json
presence and parse, three critical dependencies, React version heuristic,
and the build/start scripts. -/
def validate_frontend_dependencies (e : VEnv) (s : VState) : VState :=
  match e.pkgJson with
  | none => log_issue "frontend/package.json not found" s
  | some none => log_issue "Could not parse package.json" s
  | some (some p) =>
      let s := depCheck p.hasReactAll "react" s
      let s := depCheck p.hasReactDomAll "react-dom" s
      let s := depCheck p.hasReactScriptsAll "react-scripts" s
      let s := match p.reactDepVersion with
        | some v =>
            if containsSub v "^18" || containsSub v "^17" then
              log_success "React version compatible" s
            else log_warning "React version may be outdated" s
        | none => s
      let s := if p.hasBuild then log_success "Build script present" s
        else log_issue "No build script found" s
      if p.hasStart then log_success "Start script present" s
      else log_warning "No start script found" s

/-- One URL reachability check of `validate_network_requirements`
(never an issue: non-200 and exceptions are warnings). -/
def netCheck (p : Option Bool) (url : String) (s : VState) : VState :=
  match p with
  | some true => log_success ("Can reach " ++ url) s
  | some false => log_warning ("Issue connecting to " ++ url) s
  | none => log_warning ("Cannot reach " ++ url) s

/-- One port availability check of `validate_network_requirements`
(never an issue). -/
def portCheck (p : Option Bool) (port : Nat) (s : VState) : VState :=
  match p with
  | some true => log_success ("Port " ++ toString port ++ " available") s
  | some false => log_warning ("Port " ++ toString port ++ " already in use") s
  | none => log_warning ("Could not check port " ++ toString port) s

/-- The validator's `validate_network_requirements`: four registry URLs
and four local ports, all advisory. -/
def validate_network_requirements (e : VEnv) (s : VState) : VState :=
  let s := netCheck e.urlNodesource "https://deb.nodesource.com" s
  let s := netCheck e.urlMongodb "https://www.mongodb.org" s
  let s := netCheck e.urlNpmjs "https://registry.npmjs.org" s
  let s := netCheck e.urlPypi "https://pypi.org" s
  let s := portCheck e.portFree80 80 s
  let s := portCheck e.portFree443 443 s
  let s := portCheck e.portFree8001 8001 s
  portCheck e.portFree27017 27017 s

/-- The validator's `validate_security_requirements`: root check
(warning when root), UFW status (warnings only), and the OpenSSL probe
(issues when broken or missing). -/
def validate_security_requirements (e : VEnv) (s : VState) : VState :=
  let s := if e.isRoot then
      log_warning "Running validation as root (installer needs root, but app should not run as root)" s
    else log_success "Not running as root" s
  let s := match e.ufwProbe with
    | .rc0 => if e.ufwActive then log_success "UFW firewall active" s
        else log_warning "UFW firewall not active" s
    | .rcErr => log_warning "UFW not available" s
    | .notFound => log_warning "UFW not installed" s
    | .exc => log_warning "Could not check firewall" s
  match e.opensslProbe with
  | .rc0 => log_success "OpenSSL available" s
  | .rcErr => log_issue "OpenSSL not working" s
  | .notFound => log_issue "OpenSSL not installed" s
  | .exc => log_warning "Could not check OpenSSL" s

/-- One required-file existence check of `validate_application_files`
(an issue when missing). -/
def fileCheck (present : Bool) (path : String) (s : VState) : VState :=
  if present then log_success (path ++ " exists") s
  else log_issue (path ++ " missing") s

/-- The validator's `validate_application_files`: five required files and
the backend `server.py` component heuristics (warnings only). -/
def validate_application_files (e : VEnv) (s : VState) : VState :=
  let s := fileCheck e.fBackendServer "/app/backend/server.py" s
  let s := fileCheck e.fBackendReq "/app/backend/requirements.txt" s
  let s := fileCheck e.fFrontendPkg "/app/frontend/package.json" s
  let s := fileCheck e.fFrontendApp "/app/frontend/src/App.js" s
  let s := fileCheck e.fInstallPy "/app/install.py" s
  match e.serverContent with
  | none => log_warning "Could not validate backend" s
  | some content =>
      let comp := fun (name : String) (st : VState) =>
        if containsSub (pyLower content) (pyLower name) then
          log_success ("Backend has " ++ name ++ " support") st
        else log_warning ("Backend missing " ++ name ++ " support") st
      comp "health" (comp "MongoDB" (comp "WebSocket" (comp "FastAPI" s)))

/-- The eight checks of `run_comprehensive_validation` in their source
order. -/
def run_checks (e : VEnv) (s : VState) : VState :=
  validate_application_files e
    (validate_security_requirements e
      (validate_network_requirements e
        (validate_frontend_dependencies e
          (validate_backend_dependencies e
            (validate_node_compatibility e
              (validate_system_compatibility e
                (validate_install_script e s)))))))

/-- Shallow embedding of
`ProductionValidator.run_comprehensive_validation`: run all checks from an
empty state and return the final state plus the method's return value
`len(self.issues) == 0`. -/
def run_comprehensive_validation (e : VEnv) : VState × Bool :=
  let s := run_checks e { issues := [], warnings := [], successes := [] }
  (s, s.issues.length == 0)

/-- The validator's `main`/`__main__` exit: `sys.exit(0 if success else
1)` where `success` is the return value of
`run_comprehensive_validation`. -/
def validator_main_exit (e : VEnv) : Nat :=
  if (run_comprehensive_validation e).2 then 0 else 1

lemma firstValid_spec (p : String → Bool) :
    ∀ l x, firstValid p l = some x → p x = true := by
  intro l
  induction l with
  | nil => intro x h; simp [firstValid] at h
  | cons a as ih =>
      intro x h
      unfold firstValid at h
      by_cases hp : p (pyStrip a)
      · rw [if_pos hp] at h
        injection h with h2
        subst h2
        exact hp
      · rw [if_neg hp] at h
        exact ih x h

lemma collect_ssl_spec (isIp : Bool) (sc : String) (emails : List String)
    (b : Bool) (e : Option String)
    (h : collect_ssl isIp sc emails = some (b, e)) :
    e.isSome = b ∧ (isIp = true → b = false) ∧
      (b = true → ∃ x, e = some x ∧ x ≠ "" ∧ pyContains x '@' = true) := by
  cases isIp with
  | true =>
      simp only [collect_ssl, Bool.not_true, Bool.false_eq_true, if_false,
        Option.some.injEq, Prod.mk.injEq] at h
      obtain ⟨hb, he⟩ := h
      subst hb; subst he
      simp
  | false =>
      simp only [collect_ssl, Bool.not_false, if_true] at h
      by_cases hn : pyLower (pyStrip sc) = "n"
      · rw [if_neg (by simp [hn])] at h
        simp only [Option.some.injEq, Prod.mk.injEq] at h
        obtain ⟨hb, he⟩ := h
        subst hb; subst he
        simp
      · rw [if_pos (by simp [hn])] at h
        cases hfv : firstValid (fun e => e ≠ "" && pyContains e '@') emails with
        | none => rw [hfv] at h; simp at h
        | some x =>
            rw [hfv] at h
            simp only [Option.some.injEq, Prod.mk.injEq] at h
            obtain ⟨hb, he⟩ := h
            subst hb; subst he
            have hx := firstValid_spec _ emails x hfv
            simp only [Bool.and_eq_true, decide_eq_true_eq] at hx
            exact ⟨rfl, by simp, fun _ => ⟨x, rfl, hx.1, hx.2⟩⟩

lemma collect_configuration_shape (ds : List String) (sc : String)
    (es ws : List String) (ec ii : String) (cfg : Config)
    (h : collect_configuration ds sc es ws ec ii = some cfg) :
    ∃ b e, collect_ssl cfg.is_ip sc es = some (b, e) ∧
      cfg.enable_ssl = b ∧ cfg.ssl_email = e := by
  unfold collect_configuration at h
  cases hd : firstValid (fun d => d ≠ "" && validate_domain_or_ip d) ds with
  | none => rw [hd] at h; simp at h
  | some domain =>
      rw [hd] at h
      simp only [] at h
      cases hs : collect_ssl (is_ip_address domain) sc es with
      | none => rw [hs] at h; simp at h
      | some p =>
          obtain ⟨b, e⟩ := p
          rw [hs] at h
          cases hw : firstWs ws with
          | none => rw [hw] at h; simp at h
          | some w =>
              rw [hw] at h
              simp only [Option.some.injEq] at h
              subst h
              exact ⟨b, e, hs, rfl, rfl⟩

/-- Claim C1, counterexample: the "ssl_email is set iff enable_ssl"
invariant does not survive later steps.  Starting from a collected
configuration with SSL enabled and an email on record, a failing certbot
run makes `setup_ssl` clear `enable_ssl` while `ssl_email` stays set, so
after SSL setup the configuration has `enable_ssl = false` with
`ssl_email` still present, violating the if-and-only-if. -/
theorem C1_ssl_email_iff_fails_after_ssl_downgrade :
    collect_configuration ["example.com"] "" ["admin@example.com"] ["1"] "" "" =
      some { domain := "example.com", is_ip := false, enable_ssl := true,
             ssl_email := some "admin@example.com", web_server := "nginx",
             environment := "production", install_dir := "/opt/secret-poll" } ∧
    (setup_ssl { domain := "example.com", is_ip := false, enable_ssl := true,
                 ssl_email := some "admin@example.com", web_server := "nginx",
                 environment := "production", install_dir := "/opt/secret-poll" } false).enable_ssl
      = false ∧
    (setup_ssl { domain := "example.com", is_ip := false, enable_ssl := true,
                 ssl_email := some "admin@example.com", web_server := "nginx",
                 environment := "production", install_dir := "/opt/secret-poll" } false).ssl_email
      = some "admin@example.com" := by
  refine ⟨?_, rfl, rfl⟩
  decide

/-- Claim C1 (amended): every configuration returned by
`collect_configuration` satisfies the full invariant — `ssl_email` is set
iff `enable_ssl`, `enable_ssl` is false whenever `is_ip`, and
`enable_ssl` implies a nonempty email containing `@`.  `setup_ssl`
preserves `is_ip` and `ssl_email` and preserves the two implications
(it can only turn `enable_ssl` off), but not the iff itself, which fails
after a certbot failure as the counterexample shows. -/
theorem C1_config_invariants :
    (∀ ds sc es ws ec ii cfg,
      collect_configuration ds sc es ws ec ii = some cfg →
        cfg.ssl_email.isSome = cfg.enable_ssl ∧
        (cfg.is_ip = true → cfg.enable_ssl = false) ∧
        (cfg.enable_ssl = true →
          ∃ x, cfg.ssl_email = some x ∧ x ≠ "" ∧ pyContains x '@' = true)) ∧
    (∀ cfg ok,
      (setup_ssl cfg ok).is_ip = cfg.is_ip ∧
      (setup_ssl cfg ok).ssl_email = cfg.ssl_email ∧
      ((cfg.is_ip = true → cfg.enable_ssl = false) →
        ((setup_ssl cfg ok).is_ip = true → (setup_ssl cfg ok).enable_ssl = false)) ∧
      ((cfg.enable_ssl = true →
          ∃ x, cfg.ssl_email = some x ∧ x ≠ "" ∧ pyContains x '@' = true) →
        ((setup_ssl cfg ok).enable_ssl = true →
          ∃ x, (setup_ssl cfg ok).ssl_email = some x ∧ x ≠ "" ∧ pyContains x '@' = true))) := by
  constructor
  · intro ds sc es ws ec ii cfg h
    obtain ⟨b, e, hce, hb, he⟩ := collect_configuration_shape ds sc es ws ec ii cfg h
    obtain ⟨h1, h2, h3⟩ := collect_ssl_spec cfg.is_ip sc es b e hce
    refine ⟨by rw [hb, he]; exact h1, fun hip => by rw [hb]; exact h2 hip, fun hE => ?_⟩
    rw [he]
    exact h3 (by rw [← hb]; exact hE)
  · intro cfg ok
    cases hE : cfg.enable_ssl <;> cases ok <;>
      simp_all [setup_ssl]

/-- Witness for the amended claim C1, instantiated at a concretely
collected configuration. -/
theorem C1_config_invariants_witness :
    ({ domain := "example.com", is_ip := false, enable_ssl := true,
       ssl_email := some "admin@example.com", web_server := "nginx",
       environment := "production",
       install_dir := "/opt/secret-poll" : Config}).ssl_email.isSome =
      ({ domain := "example.com", is_ip := false, enable_ssl := true,
         ssl_email := some "admin@example.com", web_server := "nginx",
         environment := "production",
         install_dir := "/opt/secret-poll" : Config}).enable_ssl :=
  (C1_config_invariants.1 ["example.com"] "" ["admin@example.com"] ["1"] "" ""
    { domain := "example.com", is_ip := false, enable_ssl := true,
      ssl_email := some "admin@example.com", web_server := "nginx",
      environment := "production", install_dir := "/opt/secret-poll" } (by decide)).1

lemma mongo_method2_ne_exc (env : MongoEnv) :
    mongo_method2 env ≠ StratOutcome.caughtExc := by
  unfold mongo_method2
  split
  · simp
  · split
    · simp
    · split
      · split
        · simp
        · split <;> simp
      · simp

lemma install_mongodb_never_exhausted (env : MongoEnv) :
    (install_mongodb env).exhaustedReported = false := by
  unfold install_mongodb
  cases h1 : mongo_method1 env with
  | success => rfl
  | abort c => rfl
  | caughtExc =>
      cases h2 : mongo_method2 env with
      | success => rfl
      | abort c => rfl
      | caughtExc => exact absurd h2 (mongo_method2_ne_exc env)

/-- Environment in which every installation strategy fails in the most
direct way: the GPG key cannot be dearmored by any of the three variants
(so strategy 1 fails as a caught exception) and `apt-get install -y
mongodb` exits nonzero (strategy 2). -/
def mongoEnvAllStrategiesFail : MongoEnv :=
  { curl := .ok "", gpg1 := .nonzeroExit 2, gpg2 := .nonzeroExit 2, gpg3 := .nonzeroExit 2,
    lsb := .ok "jammy", aptUpdate := .ok "", aptInstallOrg := .ok "", enableMongod := .ok "",
    startMongod := .ok "", aptInstallUbuntu := .nonzeroExit 100, listUnitFiles := .ok "",
    unitHasMongod := false, unitHasMongodb := false, enableSvc2 := .ok "", startSvc2 := .ok "",
    snapInstall := .ok "" }

/-- Claim C2 (refuting evaluation): when the first strategy fails via GPG
exhaustion and the Ubuntu-repository `apt-get install` then exits
nonzero, `run_command` terminates the process with exit code 1 from
inside strategy 2: the snap strategy is never attempted, the
"all methods failed" warning branch is never reached, and the run aborts
instead of continuing.  Moreover the exhausted branch is unreachable in
every environment, because strategy 2 can only succeed or abort the
process. -/
theorem C2_mongo_strategy_failure_aborts_run :
    install_mongodb mongoEnvAllStrategiesFail =
      { attempts := [1, 2], installedVia := none,
        exhaustedReported := false, aborted := some 1 } ∧
    (∀ env, (install_mongodb env).exhaustedReported = false) :=
  ⟨by decide, install_mongodb_never_exhausted⟩

/-- Claim C3, counterexample: when the binary is missing
(`FileNotFoundError`) and `ignore_errors` is false, `run_command`
terminates the process with exit code 1 but does *not* emit the recent
log-tail diagnostics — that emission happens only in the nonzero-exit
branch. -/
theorem C3_no_log_tail_on_missing_binary :
    (run_command ["certbot"] "" false false CmdOutcome.notFound).result =
      CmdResult.exitProc 1 ∧
    (run_command ["certbot"] "" false false CmdOutcome.notFound).tailShown = false :=
  ⟨rfl, rfl⟩

/-- Claim C3 (amended): for every failing invocation, with `ignore_errors`
the failure is logged at warning level, no log tail is shown and the call
returns normally; without `ignore_errors` an error is logged and the
process exits with code 1, with the recent-log tail emitted exactly in
the nonzero-exit case (not in the binary-not-found case). -/
theorem C3_run_command_error_policy :
    ∀ cmd desc capture ignore outcome,
      outcome.failed = true →
        (ignore = true →
          (run_command cmd desc capture ignore outcome).result = CmdResult.ret "" ∧
          (∃ m, (Level.WARNING, m) ∈ (run_command cmd desc capture ignore outcome).logs) ∧
          (run_command cmd desc capture ignore outcome).tailShown = false) ∧
        (ignore = false →
          (run_command cmd desc capture ignore outcome).result = CmdResult.exitProc 1 ∧
          (∃ m, (Level.ERROR, m) ∈ (run_command cmd desc capture ignore outcome).logs) ∧
          (∀ c, outcome = CmdOutcome.nonzeroExit c →
            (run_command cmd desc capture ignore outcome).tailShown = true) ∧
          (outcome = CmdOutcome.notFound →
            (run_command cmd desc capture ignore outcome).tailShown = false)) := by
  intro cmd desc capture ignore outcome hf
  cases outcome with
  | ok s => simp [CmdOutcome.failed] at hf
  | nonzeroExit c =>
      cases ignore with
      | true =>
          constructor
          · intro _
            refine ⟨rfl, ⟨"Continuing despite error (ignore_errors=True)", ?_⟩, rfl⟩
            simp [run_command]
          · intro h
            exact nomatch h
      | false =>
          constructor
          · intro h
            exact nomatch h
          · intro _
            refine ⟨rfl, ⟨if desc ≠ "" then desc ++ " failed"
              else "Command failed: " ++ String.intercalate " " cmd, ?_⟩,
              fun c' _ => rfl, fun h => nomatch h⟩
            simp [run_command]
  | notFound =>
      cases ignore with
      | true =>
          constructor
          · intro _
            refine ⟨rfl, ⟨"Command not found: " ++ cmd.headD "", ?_⟩, rfl⟩
            simp [run_command]
          · intro h
            exact nomatch h
      | false =>
          constructor
          · intro h
            exact nomatch h
          · intro _
            refine ⟨rfl, ⟨"Command not found: " ++ cmd.headD "", ?_⟩, ?_, fun _ => rfl⟩
            · simp [run_command]
            · intro c' h
              exact nomatch h

/-- Witness for the amended claim C3 at two concrete failing calls. -/
theorem C3_run_command_error_policy_witness :
    (run_command ["apt-get", "update"] "" false true (CmdOutcome.nonzeroExit 100)).result =
      CmdResult.ret "" ∧
    (run_command ["snap", "install", "mongodb"] "" false false
      (CmdOutcome.nonzeroExit 1)).tailShown = true :=
  ⟨((C3_run_command_error_policy ["apt-get", "update"] "" false true
      (CmdOutcome.nonzeroExit 100) (by decide)).1 rfl).1,
   (((C3_run_command_error_policy ["snap", "install", "mongodb"] "" false false
      (CmdOutcome.nonzeroExit 1) (by decide)).2 rfl).2.2.1 1 rfl)⟩

/-- Claim C4: the proxy-config generators are deterministic pure
functions of the configuration.  The generated text depends only on the
`domain`, `enable_ssl` and `install_dir` fields (there is no timestamp,
counter or randomness in either generator), so any two calls that agree
on those fields — in particular two calls with the same configuration —
yield byte-identical output. -/
theorem C4_generators_deterministic :
    ∀ c1 c2 : Config, c1.domain = c2.domain → c1.enable_ssl = c2.enable_ssl →
      c1.install_dir = c2.install_dir →
      generate_nginx_config c1 = generate_nginx_config c2 ∧
      generate_apache_config c1 = generate_apache_config c2 := by
  intro c1 c2 hd hs hi
  unfold generate_nginx_config generate_apache_config
  rw [hd, hs, hi]
  exact ⟨rfl, rfl⟩

/-- Witness for claim C4: two configurations that differ in every field
the generators do not read produce the same vhost text. -/
theorem C4_generators_deterministic_witness :
    generate_nginx_config
      { domain := "example.com", is_ip := false, enable_ssl := true,
        ssl_email := some "admin@example.com", web_server := "nginx",
        environment := "production", install_dir := "/opt/secret-poll" } =
    generate_nginx_config
      { domain := "example.com", is_ip := true, enable_ssl := true,
        ssl_email := none, web_server := "apache",
        environment := "staging", install_dir := "/opt/secret-poll" } :=
  (C4_generators_deterministic _ _ rfl rfl rfl).1

/-- The configuration of scenario A: domain `example.com`, SSL enabled,
nginx as web server. -/
def scenarioAConfig : Config :=
  { domain := "example.com", is_ip := false, enable_ssl := true,
    ssl_email := some "admin@example.com", web_server := "nginx",
    environment := "production", install_dir := "/opt/secret-poll" }

set_option maxRecDepth 100000 in
/-- Claim C5: for `example.com` with SSL and nginx, the generated vhost
contains exactly one HTTP-to-HTTPS redirect line, exactly one
`listen 443 ssl` directive, and exactly one certificate directive
referencing `/etc/letsencrypt/live/example.com/fullchain.pem`. -/
theorem C5_nginx_ssl_scenario_counts :
    countOccs "return 301 https://$server_name$request_uri;".data
        (generate_nginx_config scenarioAConfig).data = 1 ∧
    countOccs "listen 443 ssl".data (generate_nginx_config scenarioAConfig).data = 1 ∧
    countOccs "ssl_certificate /etc/letsencrypt/live/example.com/fullchain.pem;".data
        (generate_nginx_config scenarioAConfig).data = 1 := by
  refine ⟨?_, ?_, ?_⟩ <;> rfl

/-- A concrete standalone-mode configuration. -/
def standaloneConfig : Config :=
  { domain := "example.com", is_ip := false, enable_ssl := false,
    ssl_email := none, web_server := "standalone",
    environment := "production", install_dir := "/opt/secret-poll" }

/-- Claim C6: in standalone mode `configure_web_server` produces no proxy
artifact and the frontend backend URL is exactly `http://domain:8001`;
for every non-standalone configuration the backend URL is the public
domain with scheme `https` iff SSL is enabled and no port suffix.  The
concrete conjunct shows the full frontend `.env` text for a standalone
configuration, with `REACT_APP_BACKEND_URL=http://example.com:8001`. -/
theorem C6_standalone_and_proxy_backend_url :
    (∀ cfg : Config, cfg.web_server = "standalone" →
      configure_web_server cfg = none ∧
      frontend_backend_url cfg = "http://" ++ cfg.domain ++ ":8001") ∧
    (∀ cfg : Config, cfg.web_server ≠ "standalone" →
      frontend_backend_url cfg =
        (if cfg.enable_ssl then "https://" else "http://") ++ cfg.domain) ∧
    create_frontend_config_content standaloneConfig =
      "# Secret Poll Frontend Configuration\nREACT_APP_BACKEND_URL=http://example.com:8001\nGENERATE_SOURCEMAP=false\nNODE_ENV=production\n\n# Generated on $(date)\n" := by
  refine ⟨fun cfg h => ⟨?_, ?_⟩, fun cfg h => ?_, by decide⟩
  · simp [configure_web_server, h]
  · simp [frontend_backend_url, h]
  · cases hE : cfg.enable_ssl <;> simp [frontend_backend_url, h, hE]

/-- Witness for claim C6 at a standalone and at an SSL-nginx
configuration. -/
theorem C6_standalone_and_proxy_backend_url_witness :
    configure_web_server standaloneConfig = none ∧
    frontend_backend_url scenarioAConfig = "https://example.com" :=
  ⟨(C6_standalone_and_proxy_backend_url.1 standaloneConfig rfl).1,
   C6_standalone_and_proxy_backend_url.2.1 scenarioAConfig (by decide)⟩

/-- Claim C7, counterexample: the configuration is not read-only after
collection — `setup_ssl` with a failing certbot run returns a different
configuration (it clears `enable_ssl`). -/
theorem C7_setup_ssl_mutates_config :
    setup_ssl { domain := "example.com", is_ip := false, enable_ssl := true,
                ssl_email := some "admin@example.com", web_server := "nginx",
                environment := "production", install_dir := "/opt/secret-poll" } false ≠
      { domain := "example.com", is_ip := false, enable_ssl := true,
        ssl_email := some "admin@example.com", web_server := "nginx",
        environment := "production", install_dir := "/opt/secret-poll" } := by
  decide

/-- Claim C7 (amended): every step after collection leaves `domain`,
`is_ip`, `ssl_email`, `web_server`, `environment` and `install_dir`
untouched (the config generators are pure functions and `setup_ssl` is
the only step writing to the configuration); the configuration can change
only in `enable_ssl`, and only when SSL was enabled and the certbot run
failed, in which case `enable_ssl` becomes false. -/
theorem C7_config_frame :
    ∀ (cfg : Config) (ok : Bool),
      (setup_ssl cfg ok).domain = cfg.domain ∧
      (setup_ssl cfg ok).is_ip = cfg.is_ip ∧
      (setup_ssl cfg ok).ssl_email = cfg.ssl_email ∧
      (setup_ssl cfg ok).web_server = cfg.web_server ∧
      (setup_ssl cfg ok).environment = cfg.environment ∧
      (setup_ssl cfg ok).install_dir = cfg.install_dir ∧
      (setup_ssl cfg ok ≠ cfg →
        cfg.enable_ssl = true ∧ ok = false ∧ (setup_ssl cfg ok).enable_ssl = false) := by
  intro cfg ok
  cases hE : cfg.enable_ssl <;> cases ok <;> simp_all [setup_ssl]

/-- Witness for the amended claim C7 at a concrete certbot failure. -/
theorem C7_config_frame_witness :
    (setup_ssl { domain := "example.com", is_ip := false, enable_ssl := true,
                 ssl_email := some "admin@example.com", web_server := "nginx",
                 environment := "production", install_dir := "/opt/secret-poll" } false).ssl_email
      = some "admin@example.com" ∧
    (setup_ssl { domain := "example.com", is_ip := false, enable_ssl := true,
                 ssl_email := some "admin@example.com", web_server := "nginx",
                 environment := "production", install_dir := "/opt/secret-poll" } false).enable_ssl
      = false :=
  ⟨(C7_config_frame _ false).2.2.1,
   ((C7_config_frame _ false).2.2.2.2.2.2 (by decide)).2.2⟩

/-- Claim C8: fallback chains attempt at most N strategies, stop at the
first strategy that succeeds, and report exhaustion only after all N
strategies failed.  For the GPG loop this holds in full generality.  For
the three-strategy MongoDB chain at most three strategies run, and
whichever strategy is the first to succeed ends the chain there: a
strategy-1 success gives attempts `[1]`, a strategy-2 success after a
strategy-1 failure gives attempts `[1, 2]` (snap is not attempted), a
strategy-3 success after two failures gives attempts `[1, 2, 3]`, and the
exhausted branch requires all three to have been entered with none having
installed MongoDB. -/
theorem C8_fallback_chain_termination :
    (∀ outs : List CmdOutcome, (gpg_loop outs).2 ≤ outs.length) ∧
    (∀ (l₁ : List CmdOutcome) (o : CmdOutcome) (l₂ : List CmdOutcome),
      (∀ x ∈ l₁, x.failed = true) → o.failed = false →
        gpg_loop (l₁ ++ o :: l₂) = (true, l₁.length + 1)) ∧
    (∀ outs : List CmdOutcome, (gpg_loop outs).1 = false ↔ ∀ x ∈ outs, x.failed = true) ∧
    (∀ outs : List CmdOutcome, (gpg_loop outs).1 = false → (gpg_loop outs).2 = outs.length) ∧
    (∀ env : MongoEnv,
      (install_mongodb env).attempts.length ≤ 3 ∧
      (mongo_method1 env = StratOutcome.success →
        (install_mongodb env).attempts = [1] ∧ (install_mongodb env).installedVia = some 1) ∧
      (mongo_method1 env = StratOutcome.caughtExc →
        mongo_method2 env = StratOutcome.success →
        (install_mongodb env).attempts = [1, 2] ∧
        (install_mongodb env).installedVia = some 2) ∧
      (mongo_method1 env = StratOutcome.caughtExc →
        mongo_method2 env = StratOutcome.caughtExc →
        mongo_method3 env = StratOutcome.success →
        (install_mongodb env).attempts = [1, 2, 3] ∧
        (install_mongodb env).installedVia = some 3) ∧
      ((install_mongodb env).exhaustedReported = true →
        (install_mongodb env).attempts = [1, 2, 3] ∧
        (install_mongodb env).installedVia = none)) := by
  refine ⟨?_, ?_, ?_, ?_, ?_⟩
  · intro outs
    induction outs with
    | nil => simp [gpg_loop]
    | cons o rest ih =>
        cases h : o.failed <;> simp [gpg_loop, h] <;> omega
  · intro l₁ o l₂ hfail hok
    induction l₁ with
    | nil => simp [gpg_loop, hok]
    | cons a as ih =>
        have ha : a.failed = true := hfail a (List.mem_cons_self a as)
        have ih' := ih fun x hx => hfail x (List.mem_cons_of_mem a hx)
        simp [gpg_loop, ha, ih']
  · intro outs
    induction outs with
    | nil => simp [gpg_loop]
    | cons o rest ih =>
        cases h : o.failed <;> simp [gpg_loop, h, ih]
  · intro outs
    induction outs with
    | nil => simp [gpg_loop]
    | cons o rest ih =>
        cases h : o.failed <;> simp [gpg_loop, h] <;> intro h1 <;> simp [ih h1]
  · intro env
    unfold install_mongodb
    cases h1 : mongo_method1 env with
    | success => simp
    | abort c => simp
    | caughtExc =>
        cases h2 : mongo_method2 env with
        | success => simp
        | abort c => simp
        | caughtExc =>
            cases h3 : mongo_method3 env <;> simp

/-- Environment in which strategy 1 fails via GPG exhaustion and the
Ubuntu-repository strategy succeeds; the snap command would fail, so a
chain that wrongly went on to strategy 3 could not produce this
outcome. -/
def mongoEnvSecondStrategyWins : MongoEnv :=
  { curl := .ok "", gpg1 := .nonzeroExit 2, gpg2 := .nonzeroExit 2, gpg3 := .nonzeroExit 2,
    lsb := .ok "jammy", aptUpdate := .ok "", aptInstallOrg := .ok "", enableMongod := .ok "",
    startMongod := .ok "", aptInstallUbuntu := .ok "", listUnitFiles := .ok "",
    unitHasMongod := true, unitHasMongodb := false, enableSvc2 := .ok "", startSvc2 := .ok "",
    snapInstall := .nonzeroExit 1 }

/-- Witness for claim C8: the GPG chain with one failing variant followed
by a succeeding one stops after exactly two attempts with success, and
the MongoDB chain with strategy 1 failing and strategy 2 succeeding stops
after attempts `[1, 2]` without touching snap. -/
theorem C8_fallback_chain_termination_witness :
    gpg_loop [CmdOutcome.nonzeroExit 1, CmdOutcome.ok "", CmdOutcome.ok ""] = (true, 2) ∧
    (install_mongodb mongoEnvSecondStrategyWins).attempts = [1, 2] ∧
    (install_mongodb mongoEnvSecondStrategyWins).installedVia = some 2 :=
  ⟨C8_fallback_chain_termination.2.1 [CmdOutcome.nonzeroExit 1] (CmdOutcome.ok "")
      [CmdOutcome.ok ""] (by decide) (by decide),
   (C8_fallback_chain_termination.2.2.2.2 mongoEnvSecondStrategyWins).2.2.1
      (by decide) (by decide)⟩

/-- Claim C9: answering `n` (after stripping and lowercasing, as the
prompt does) at the configuration summary exits the process with code 0 —
the success code, distinct from the code 1 used by the
keyboard-interrupt and fatal-error handlers of `run_installation` — and
any other answer, including an empty one, lets the installation
continue. -/
theorem C9_confirmation_exit_codes :
    (∀ s, pyLower (pyStrip s) = "n" →
      show_configuration_summary_confirm s = StepFlow.exitProc 0) ∧
    (∀ s, pyLower (pyStrip s) ≠ "n" →
      show_configuration_summary_confirm s = StepFlow.proceed) ∧
    show_configuration_summary_confirm "" = StepFlow.proceed ∧
    run_installation_exit RunOutcome.keyboardInterrupt = 1 ∧
    run_installation_exit RunOutcome.fatalException = 1 ∧
    run_installation_exit RunOutcome.completed = 0 := by
  refine ⟨fun s h => ?_, fun s h => ?_, rfl, rfl, rfl, rfl⟩
  · simp [show_configuration_summary_confirm, h]
  · simp [show_configuration_summary_confirm, h]

/-- Witness for claim C9 at the concrete answers `"n"` and `""`. -/
theorem C9_confirmation_exit_codes_witness :
    show_configuration_summary_confirm "n" = StepFlow.exitProc 0 ∧
    show_configuration_summary_confirm "" = StepFlow.proceed :=
  ⟨C9_confirmation_exit_codes.1 "n" (by decide),
   C9_confirmation_exit_codes.2.1 "" (by decide)⟩

/-- Claim C10: the validator's readiness verdict depends only on critical
issues, never on warnings: for every environment,
`run_comprehensive_validation` returns true exactly when the issue list
is empty at the end of all checks, and the process exit code is 0 exactly
in that case (and 1 otherwise), whatever the number of warnings. -/
theorem C10_validator_verdict_ignores_warnings :
    ∀ e : VEnv,
      ((run_comprehensive_validation e).2 = true ↔
        (run_comprehensive_validation e).1.issues = []) ∧
      (validator_main_exit e = 0 ↔ (run_comprehensive_validation e).1.issues = []) ∧
      (validator_main_exit e = 0 ∨ validator_main_exit e = 1) := by
  intro e
  unfold validator_main_exit run_comprehensive_validation
  cases h : (run_checks e { issues := [], warnings := [], successes := [] }).issues with
  | nil => simp [h]
  | cons a t => simp [h]

/-- A fully healthy package.json view, for the C10 witness
environment. -/
def pkgJsonAllGood : PkgJson :=
  { hasReactAll := true, hasReactDomAll := true, hasReactScriptsAll := true,
    reactDepVersion := some "^19.0.0", hasBuild := true, hasStart := true }

/-- A validator environment in which every probe succeeds. -/
def vEnvAllGood : VEnv :=
  { installPyExists := true, syntaxCheck := some true, hasTryExcept := true,
    hasFallback := true, hasSelfLog := true, hasNodeSourceFailed := true,
    mongodbCountGe3 := true, osRelease := some "ubuntu", memInfo := some (some 4194304),
    diskBytes := some 21474836480, systemctlVersion := .rc0, nodeProbe := .rc0,
    nodeParsed := some (20, 11), npmProbe := .rc0, npmMajor := some 10,
    yarnProbe := .rc0, requirementsExists := true, reqHasFastapi := true,
    reqHasUvicorn := true, reqHasPymongo := true, reqHasWebsockets := true,
    reqHasReportlab := true, reqHasPin := true, pyVersion := .parsed 3 11,
    pkgJson := some (some pkgJsonAllGood),
    urlNodesource := some true, urlMongodb := some true, urlNpmjs := some true,
    urlPypi := some true, portFree80 := some true, portFree443 := some true,
    portFree8001 := some true, portFree27017 := some true, isRoot := false,
    ufwProbe := .rc0, ufwActive := true, opensslProbe := .rc0,
    fBackendServer := true, fBackendReq := true, fFrontendPkg := true,
    fFrontendApp := true, fInstallPy := true,
    serverContent := some "FastAPI WebSocket MongoDB health" }

/-- Witness for claim C10 at one concrete environment in which every
probe succeeds. -/
theorem C10_validator_verdict_ignores_warnings_witness :
    validator_main_exit vEnvAllGood = 0 :=
  ((C10_validator_verdict_ignores_warnings vEnvAllGood).2.1).mpr (by decide)
